import Mathlib

/-!
Shallow embedding of the TCP-connection watcher repository
(watcher_sub_off.py, watcher2.py, watcher3-rich.py, watcher-sudo.py,
net-admin.py).  Each Python source function is translated into an
executable Lean definition; Python exceptions that escape a function are
modelled with `Except Unit`, fallible library primitives with `Option`.

Python primitives modelled here:
  * `int(s, 16)`        → `hexNat?` (plain hex digits; the table fields never
                           carry sign/whitespace/`0x` forms).
  * `str.split()`       → `pySplitWs` (split on whitespace runs, drop empties).
  * `str.split(":")`    → `splitColon` (keep empties, exactly as Python).
  * `n.to_bytes(4,'little')` → `leBytes4`; `(16,'big')` → `beBytes16`.
  * `socket.inet_ntoa`  → `inet_ntoa` (dotted decimal of the 4 bytes).
  * `socket.inet_ntop(AF_INET6, bs)` is a C-library renderer; the decode
    claims are stated on the 16-byte sequence handed to it, which the
    `HexIpOutcome.v6` constructor records.
-/

/-- Value of one hexadecimal digit, as accepted by Python `int(_, 16)`. -/
def hexDigitVal? (c : Char) : Option Nat :=
  if '0' ≤ c ∧ c ≤ '9' then some (c.toNat - '0'.toNat)
  else if 'a' ≤ c ∧ c ≤ 'f' then some (c.toNat - 'a'.toNat + 10)
  else if 'A' ≤ c ∧ c ≤ 'F' then some (c.toNat - 'A'.toNat + 10)
  else none

/-- Accumulating base-16 parse over a character list. -/
def hexNatAux : List Char → Nat → Option Nat
  | [], acc => some acc
  | c :: cs, acc =>
    match hexDigitVal? c with
    | some d => hexNatAux cs (16 * acc + d)
    | none => none

/-- Model of Python `int(s, 16)` on the plain-hex strings found in the
kernel table: `none` models the `ValueError` raised on an empty or
non-hex string. -/
def hexNat? (s : String) : Option Nat :=
  match s.data with
  | [] => none
  | cs => hexNatAux cs 0

/-- Model of the Python slice `s[i:i+len]` (clamping, like Python). -/
def hexSlice (s : String) (i len : Nat) : String :=
  String.mk ((s.data.drop i).take len)

/-- Split a character list at every separator character, keeping empty
tokens, accumulating the current token in reverse. -/
def splitPredAux (p : Char → Bool) : List Char → List Char → List String
  | [], acc => [String.mk acc.reverse]
  | c :: cs, acc =>
    if p c then String.mk acc.reverse :: splitPredAux p cs []
    else splitPredAux p cs (c :: acc)

/-- Model of Python `str.split()` with no argument: split on whitespace
runs and discard empty tokens. -/
def pySplitWs (s : String) : List String :=
  (splitPredAux (fun c => c.isWhitespace) s.data []).filter (fun t => !(t == ""))

/-- Model of Python `str.split(":")`: empty tokens are kept. -/
def splitColon (s : String) : List String :=
  splitPredAux (fun c => c == ':') s.data []

/-- Uppercase hexadecimal digit character for a value below 16. -/
def hexDigitChar (v : Nat) : Char :=
  if v < 10 then Char.ofNat ('0'.toNat + v) else Char.ofNat ('A'.toNat + v - 10)

/-- Two uppercase hex digit characters of one byte. -/
def byteToHexChars (b : Nat) : List Char :=
  [hexDigitChar (b / 16), hexDigitChar (b % 16)]

/-- Hex characters of a byte sequence, two digits per byte, in order. -/
def bytesToHexChars : List Nat → List Char
  | [] => []
  | b :: bs => byteToHexChars b ++ bytesToHexChars bs

/-- Uppercase hex string of a byte sequence (the kernel table renders
addresses with `%08X`, so valid encodings are uppercase). -/
def bytesToHex (bs : List Nat) : String :=
  String.mk (bytesToHexChars bs)

/-- The fixed 11-entry state table, identical in all five source files. -/
def TCP_STATES : List (String × String) :=
  [("01", "ESTABLISHED"), ("02", "SYN_SENT"), ("03", "SYN_RECV"), ("04", "FIN_WAIT1"),
   ("05", "FIN_WAIT2"), ("06", "TIME_WAIT"), ("07", "CLOSE"), ("08", "CLOSE_WAIT"),
   ("09", "LAST_ACK"), ("0A", "LISTEN"), ("0B", "CLOSING")]

/-- Model of `TCP_STATES.get(code, "UNKNOWN")`, used by every variant. -/
def tcpStateGet (code : String) : String :=
  (TCP_STATES.lookup code).getD "UNKNOWN"

namespace WatcherSubOff

/-- Outcome of `hex_to_ip` in watcher_sub_off.py.  `.v4` carries the
dotted-decimal string returned through `socket.inet_ntoa`; `.v6` carries
the 16 bytes handed to `socket.inet_ntop` (whose colon-hex rendering is
the C library's concern); `.invalid` is the `return "INVALID"` branch;
`.exnFallback` is the `except` branch returning `"0.0.0.0"`. -/
inductive HexIpOutcome where
  | v4 (dotted : String)
  | v6 (ipBytes : List Nat)
  | invalid
  | exnFallback
deriving DecidableEq

/-- Model of `ip_int.to_bytes(4, byteorder='little')`. -/
def leBytes4 (n : Nat) : List Nat :=
  [n % 256, n / 256 % 256, n / 65536 % 256, n / 16777216 % 256]

/-- Model of `socket.inet_ntoa`: dotted decimal of the 4 bytes in order. -/
def inet_ntoa (bs : List Nat) : String :=
  String.intercalate "." (bs.map (fun b => toString b))

/-- The `ip_bytes` value of the 8-hex-digit branch of `hex_to_ip`:
`int(hex_ip, 16).to_bytes(4, 'little')`. -/
def ipv4_bytes? (hex_ip : String) : Option (List Nat) :=
  (hexNat? hex_ip).map leBytes4

/-- The `ip_int` value of the 32-hex-digit branch of `hex_to_ip`:
`chunks = [hex_ip[i:i+8] for i in range(0, 32, 8)]` and then
`ip_int |= int(chunk, 16) << (32 * i)` for `i, chunk` over
`enumerate(reversed(chunks))`, so chunk 3 lands in bits 0-31 and
chunk 0 in bits 96-127. -/
def ipv6_int? (hex_ip : String) : Option Nat :=
  match hexNat? (hexSlice hex_ip 0 8), hexNat? (hexSlice hex_ip 8 8),
        hexNat? (hexSlice hex_ip 16 8), hexNat? (hexSlice hex_ip 24 8) with
  | some c0, some c1, some c2, some c3 =>
      some (c3 + c2 * 2 ^ 32 + c1 * 2 ^ 64 + c0 * 2 ^ 96)
  | _, _, _, _ => none

/-- Model of `ip_int.to_bytes(16, byteorder='big')`. -/
def beBytes16 (n : Nat) : List Nat :=
  [n / 2 ^ 120 % 256, n / 2 ^ 112 % 256, n / 2 ^ 104 % 256, n / 2 ^ 96 % 256,
   n / 2 ^ 88 % 256, n / 2 ^ 80 % 256, n / 2 ^ 72 % 256, n / 2 ^ 64 % 256,
   n / 2 ^ 56 % 256, n / 2 ^ 48 % 256, n / 2 ^ 40 % 256, n / 2 ^ 32 % 256,
   n / 2 ^ 24 % 256, n / 2 ^ 16 % 256, n / 2 ^ 8 % 256, n % 256]

/-- Model of `hex_to_ip` in watcher_sub_off.py: branch on the hex length,
8 digits → little-endian IPv4 decode, 32 digits → the chunk computation
above, anything else → the literal `"INVALID"`; a parse exception inside
either branch is caught and yields `"0.0.0.0"`. -/
def hex_to_ip (hex_ip : String) : HexIpOutcome :=
  if hex_ip.length = 8 then
    match ipv4_bytes? hex_ip with
    | some bs => .v4 (inet_ntoa bs)
    | none => .exnFallback
  else if hex_ip.length = 32 then
    match ipv6_int? hex_ip with
    | some n => .v6 (beBytes16 n)
    | none => .exnFallback
  else .invalid

/-- One printed row of watcher_sub_off.py's `read_tcp_connections`
(netid, resolved state name, decoded endpoints, uid; colors are
display-only and omitted). -/
structure Row where
  netid : String
  state_name : String
  local_ip : HexIpOutcome
  local_port : Nat
  peer_ip : HexIpOutcome
  peer_port : Nat
  uid : String
deriving DecidableEq

/-- Per-line body of the loop in watcher_sub_off.py lines 72-107: a line
with fewer than 10 whitespace fields is skipped (`continue`); an
endpoint field that does not split on `":"` into exactly two parts
raises an uncaught `ValueError`, a non-hex port an uncaught
`ValueError` from `int(_, 16)`; otherwise a row is printed. -/
def lineRow (line : String) : Except Unit (Option Row) :=
  let line_data := pySplitWs line
  if line_data.length < 10 then .ok none
  else
    match splitColon (line_data.getD 1 "") with
    | [local_address, local_port] =>
      match splitColon (line_data.getD 2 "") with
      | [peer_address, peer_port] =>
        match hexNat? local_port, hexNat? peer_port with
        | some lp, some pp =>
            .ok (some { netid := line_data.getD 0 "",
                        state_name := tcpStateGet (line_data.getD 3 ""),
                        local_ip := hex_to_ip local_address, local_port := lp,
                        peer_ip := hex_to_ip peer_address, peer_port := pp,
                        uid := line_data.getD 7 "" })
        | _, _ => .error ()
      | _ => .error ()
    | _ => .error ()

/-- The loop of watcher_sub_off.py's `read_tcp_connections` over the
data lines (`lines[1:]`), collecting the printed rows in order. -/
def processRows : List String → Except Unit (List Row)
  | [] => .ok []
  | l :: ls =>
    match lineRow l with
    | .error e => .error e
    | .ok none => processRows ls
    | .ok (some r) =>
      match processRows ls with
      | .error e => .error e
      | .ok rs => .ok (r :: rs)

end WatcherSubOff

/-- Model of the state filter shared by watcher2.py (line 62 area) and
net-admin.py (line 80): `if filter_state and state != filter_state:
continue`; the record is kept unless the filter value is truthy (a
non-empty string) and differs from the resolved state name. -/
def stateKeep (fstate : Option String) (state_name : String) : Bool :=
  match fstate with
  | none => true
  | some s => if s == "" then true else state_name == s

/-- Model of the address filter: `if filter_ip and filter_ip not in
(local_ip, peer_ip): continue` in net-admin.py, logically identical to
watcher2.py's `local_ip != filter_ip and peer_ip != filter_ip` form. -/
def ipKeep (fip : Option String) (local_ip peer_ip : String) : Bool :=
  match fip with
  | none => true
  | some s => if s == "" then true else (local_ip == s || peer_ip == s)

/-- Model of the port filter: `if filter_port and filter_port not in
(local_port, peer_port): continue`; Python truthiness makes the value 0
behave like an absent filter. -/
def portKeep (fport : Option Nat) (local_port peer_port : Nat) : Bool :=
  match fport with
  | none => true
  | some p => if p == 0 then true else (local_port == p || peer_port == p)

namespace Watcher2

/-- Model of `parse_ip` in watcher2.py: `".".join(str(int(hex_ip[i:i+2],
16)) for i in range(0, 8, 2))` — the hex pairs are read from the START
of the string toward the end.  `none` models the uncaught `ValueError`
when a pair is not hex. -/
def parse_ip? (hex_ip : String) : Option String :=
  match hexNat? (hexSlice hex_ip 0 2), hexNat? (hexSlice hex_ip 2 2),
        hexNat? (hexSlice hex_ip 4 2), hexNat? (hexSlice hex_ip 6 2) with
  | some a, some b, some c, some d =>
      some (toString a ++ "." ++ toString b ++ "." ++ toString c ++ "." ++ toString d)
  | _, _, _, _ => none

/-- Connection dictionary built by watcher2.py's `read_tcp_connections`. -/
structure Rec where
  local_address : String
  local_port : Nat
  peer_address : String
  peer_port : Nat
  state : String
deriving DecidableEq

/-- Per-line body of the loop in watcher2.py lines 44-55.  There is no
field-count guard: `line_data[1]`, `line_data[2]`, `line_data[3]` on a
line with fewer than 4 whitespace fields raise `IndexError`, the
endpoint unpack raises `ValueError` unless the split yields exactly two
parts, and `int(_, 16)` raises on a non-hex field.  None of these is
caught by the surrounding `try` (which handles only `FileNotFoundError`
and `PermissionError`), so they are modelled as `Except.error`. -/
def decodeLine (line : String) : Except Unit Rec :=
  let line_data := pySplitWs line
  if line_data.length < 4 then .error ()
  else
    match splitColon (line_data.getD 1 "") with
    | [local_address, local_port] =>
      match splitColon (line_data.getD 2 "") with
      | [peer_address, peer_port] =>
        match parse_ip? local_address, parse_ip? peer_address,
              hexNat? local_port, hexNat? peer_port with
        | some li, some pi, some lp, some pp =>
            .ok { local_address := li, local_port := lp, peer_address := pi,
                  peer_port := pp, state := tcpStateGet (line_data.getD 3 "") }
        | _, _, _, _ => .error ()
      | _ => .error ()
    | _ => .error ()

/-- The loop of watcher2.py's `read_tcp_connections` over the data lines
(header already removed), applying the three filters before appending. -/
def process (fstate fip : Option String) (fport : Option Nat) :
    List String → Except Unit (List Rec)
  | [] => .ok []
  | l :: ls =>
    match decodeLine l with
    | .error e => .error e
    | .ok r =>
      if stateKeep fstate r.state && ipKeep fip r.local_address r.peer_address
          && portKeep fport r.local_port r.peer_port then
        match process fstate fip fport ls with
        | .error e => .error e
        | .ok rs => .ok (r :: rs)
      else process fstate fip fport ls

end Watcher2

namespace NetAdmin

/-- Model of `parse_ipv4` in net-admin.py: hex pairs are read at indices
6, 4, 2, 0 (`range(6, -1, -2)`), i.e. from the END of the string toward
the start; a `ValueError` in the generator is caught and yields the
fallback string `"0.0.0.0"`. -/
def parse_ipv4 (hex_ip : String) : String :=
  match hexNat? (hexSlice hex_ip 6 2), hexNat? (hexSlice hex_ip 4 2),
        hexNat? (hexSlice hex_ip 2 2), hexNat? (hexSlice hex_ip 0 2) with
  | some a, some b, some c, some d =>
      toString a ++ "." ++ toString b ++ "." ++ toString c ++ "." ++ toString d
  | _, _, _, _ => "0.0.0.0"

/-- Model of `parse_ipv6` in net-admin.py: the 32 hex digits are simply
regrouped into eight 4-digit groups joined with `":"`; no byte
reordering of any kind is performed (the `except ValueError` branch is
unreachable since slicing and joining cannot raise it). -/
def parse_ipv6 (hex_ip : String) : String :=
  String.intercalate ":"
    [hexSlice hex_ip 0 4, hexSlice hex_ip 4 4, hexSlice hex_ip 8 4,
     hexSlice hex_ip 12 4, hexSlice hex_ip 16 4, hexSlice hex_ip 20 4,
     hexSlice hex_ip 24 4, hexSlice hex_ip 28 4]

/-- Connection dictionary built by net-admin.py's `read_tcp_connections`. -/
structure Conn where
  protocol : String
  state : String
  local_address : String
  local_port : Nat
  peer_address : String
  peer_port : Nat
deriving DecidableEq

/-- Conjunction of the three filter guards of net-admin.py lines 80-85,
evaluated in source order (state, then address, then port). -/
def passes (fstate fip : Option String) (fport : Option Nat) (r : Conn) : Bool :=
  stateKeep fstate r.state && ipKeep fip r.local_address r.peer_address
    && portKeep fport r.local_port r.peer_port

/-- Decode steps of one loop iteration in net-admin.py lines 65-77
(before the filter guards): fewer than 4 fields → `continue` (`none`);
an endpoint field that does not split on `":"` into exactly two parts
raises an uncaught `ValueError` (`error`), as does a non-hex port. -/
def decodeLine (protocol : String) (line : String) : Except Unit (Option Conn) :=
  let fields := pySplitWs line
  if fields.length < 4 then .ok none
  else
    match splitColon (fields.getD 1 "") with
    | [local_hex, local_port_hex] =>
      match splitColon (fields.getD 2 "") with
      | [peer_hex, peer_port_hex] =>
        let state := tcpStateGet (fields.getD 3 "")
        let local_ip := if protocol.data.contains '6' then parse_ipv6 local_hex
                        else parse_ipv4 local_hex
        let peer_ip := if protocol.data.contains '6' then parse_ipv6 peer_hex
                       else parse_ipv4 peer_hex
        match hexNat? local_port_hex, hexNat? peer_port_hex with
        | some lp, some pp =>
            .ok (some { protocol := protocol, state := state,
                        local_address := local_ip, local_port := lp,
                        peer_address := peer_ip, peer_port := pp })
        | _, _ => .error ()
      | _ => .error ()
    | _ => .error ()

/-- The loop of net-admin.py's `read_tcp_connections` over the data
lines (header already consumed by `next(file)`): decode, apply the three
filter guards, append in order; an uncaught per-line exception aborts
the whole batch. -/
def process (protocol : String) (fstate fip : Option String) (fport : Option Nat) :
    List String → Except Unit (List Conn)
  | [] => .ok []
  | l :: ls =>
    match decodeLine protocol l with
    | .error e => .error e
    | .ok none => process protocol fstate fip fport ls
    | .ok (some r) =>
      if passes fstate fip fport r then
        match process protocol fstate fip fport ls with
        | .error e => .error e
        | .ok rs => .ok (r :: rs)
      else process protocol fstate fip fport ls

/-- Result of net-admin.py's `read_tcp_connections`: the record list (or
an aborting exception) plus whether the missing-file condition was
logged. -/
structure ReadResult where
  result : Except Unit (List Conn)
  sourceUnavailable : Bool

/-- Model of net-admin.py's `read_tcp_connections` entry: the filesystem
is a map from path to file lines (`none` = the path does not exist).
`os.path.exists` failing → log and return `[]`; otherwise `next(file)`
consumes the header (raising `StopIteration` on an empty file, uncaught)
and the loop runs over the remaining lines. -/
def read_tcp_connections (fs : String → Option (List String)) (protocol : String)
    (fstate fip : Option String) (fport : Option Nat) : ReadResult :=
  match fs ("/proc/net/" ++ protocol) with
  | none => ⟨.ok [], true⟩
  | some [] => ⟨.error (), false⟩
  | some (_ :: rest) => ⟨process protocol fstate fip fport rest, false⟩

/-- Single filter axis over a record list: the state guard alone. -/
def filterState (fstate : Option String) (l : List Conn) : List Conn :=
  l.filter (fun r => stateKeep fstate r.state)

/-- Single filter axis over a record list: the address guard alone. -/
def filterIp (fip : Option String) (l : List Conn) : List Conn :=
  l.filter (fun r => ipKeep fip r.local_address r.peer_address)

/-- Single filter axis over a record list: the port guard alone. -/
def filterPort (fport : Option Nat) (l : List Conn) : List Conn :=
  l.filter (fun r => portKeep fport r.local_port r.peer_port)

end NetAdmin

namespace Watcher3Rich

/-- The `STATE_COLORS` table of watcher3-rich.py. -/
def STATE_COLORS : List (String × String) :=
  [("ESTABLISHED", "green"), ("LISTEN", "yellow"), ("SYN_SENT", "red"),
   ("SYN_RECV", "red"), ("CLOSE", "red"), ("CLOSE_WAIT", "red"),
   ("FIN_WAIT1", "magenta"), ("FIN_WAIT2", "magenta"), ("TIME_WAIT", "blue"),
   ("LAST_ACK", "blue"), ("CLOSING", "blue"), ("UNKNOWN", "white")]

/-- Model of `parse_ip` in watcher3-rich.py: 8 hex digits → dotted
decimal with the pairs read from the START toward the end (`range(0, 8,
2)`, no byte reversal); 32 hex digits → the digits regrouped into eight
colon-separated 4-digit groups; any other length → the literal
`"UNKNOWN"`.  `error` models the uncaught `ValueError` when an 8-digit
field is not hex. -/
def parse_ip (hex_ip : String) : Except Unit String :=
  if hex_ip.length = 8 then
    match hexNat? (hexSlice hex_ip 0 2), hexNat? (hexSlice hex_ip 2 2),
          hexNat? (hexSlice hex_ip 4 2), hexNat? (hexSlice hex_ip 6 2) with
    | some a, some b, some c, some d =>
        .ok (toString a ++ "." ++ toString b ++ "." ++ toString c ++ "." ++ toString d)
    | _, _, _, _ => .error ()
  else if hex_ip.length = 32 then
    .ok (String.intercalate ":"
      [hexSlice hex_ip 0 4, hexSlice hex_ip 4 4, hexSlice hex_ip 8 4,
       hexSlice hex_ip 12 4, hexSlice hex_ip 16 4, hexSlice hex_ip 20 4,
       hexSlice hex_ip 24 4, hexSlice hex_ip 28 4])
  else .ok "UNKNOWN"

/-- One tuple appended by watcher3-rich.py's `read_tcp_connections`:
`(protocol, state_name, color, "local_ip:port", "peer_ip:port")`, with
the ports rendered in decimal inside the endpoint strings. -/
structure ConnTuple where
  protocol : String
  state_name : String
  color : String
  localEndpoint : String
  peerEndpoint : String
deriving DecidableEq

/-- Per-line body of the parse loop in watcher3-rich.py lines 57-70.
The loop sits OUTSIDE the `try`, so its exceptions propagate: fewer than
4 whitespace fields → `IndexError` on `line_data[1]`; an endpoint that
does not split on `":"` into exactly two parts → `ValueError`; a
non-hex 8-digit address or non-hex port → `ValueError` from
`int(_, 16)`. -/
def parseLine (protocol : String) (line : String) : Except Unit ConnTuple :=
  let line_data := pySplitWs line
  if line_data.length < 4 then .error ()
  else
    match splitColon (line_data.getD 1 "") with
    | [local_address, local_port] =>
      match splitColon (line_data.getD 2 "") with
      | [peer_address, peer_port] =>
        let state_name := tcpStateGet (line_data.getD 3 "")
        let color := (STATE_COLORS.lookup state_name).getD "white"
        match parse_ip local_address, parse_ip peer_address,
              hexNat? local_port, hexNat? peer_port with
        | .ok li, .ok pi, some lp, some pp =>
            .ok { protocol := protocol, state_name := state_name, color := color,
                  localEndpoint := li ++ ":" ++ toString lp,
                  peerEndpoint := pi ++ ":" ++ toString pp }
        | _, _, _, _ => .error ()
      | _ => .error ()
    | _ => .error ()

/-- The parse loop of watcher3-rich.py's `read_tcp_connections` over
`lines[1:]`, collecting the tuples in order; a per-line exception aborts
the whole call. -/
def processLines (protocol : String) : List String → Except Unit (List ConnTuple)
  | [] => .ok []
  | l :: ls =>
    match parseLine protocol l with
    | .error e => .error e
    | .ok t =>
      match processLines protocol ls with
      | .error e => .error e
      | .ok ts => .ok (t :: ts)

/-- State of one filesystem path, distinguishing the two caught
exceptions of watcher3-rich.py's reader. -/
inductive FsEntry where
  | absent
  | denied
  | readable (lines : List String)

/-- Result of watcher3-rich.py's `read_tcp_connections`: the tuples (or
an aborting parse-loop exception) plus whether any error message was
printed for the read itself. -/
structure ReadResult where
  result : Except Unit (List ConnTuple)
  reported : Bool

/-- Model of `read_tcp_connections` in watcher3-rich.py lines 45-70: a
missing file (`FileNotFoundError`) yields `[]` SILENTLY — nothing is
printed or reported on that branch; `PermissionError` prints an error
and yields `[]`; otherwise `lines[1:]` drops the header and the parse
loop runs over the rest. -/
def read_tcp_connections (fs : String → FsEntry) (filename protocol : String) :
    ReadResult :=
  match fs filename with
  | .absent => ⟨.ok [], false⟩
  | .denied => ⟨.ok [], true⟩
  | .readable lines => ⟨processLines protocol (lines.drop 1), false⟩

end Watcher3Rich

namespace WatcherSudo

/-- Model of `parse_port` in watcher-sudo.py: `int(hex_port, 16)` with
the `ValueError` caught and the value 0 substituted. -/
def parse_port (hex_port : String) : Nat :=
  (hexNat? hex_port).getD 0

/-- Model of the `ipv6=False` branch of `parse_ip_address` in
watcher-sudo.py: octets from hex pairs at indices `reversed(range(0, 8,
2))` = 6, 4, 2, 0; any `ValueError` is caught and yields the placeholder
`"INVALID_IP"`.  (The `ipv6=True` branch hands its integer to the
`ipaddress` library for rendering and is exercised by no claim.) -/
def parse_ip_address (hex_ip : String) : String :=
  match hexNat? (hexSlice hex_ip 6 2), hexNat? (hexSlice hex_ip 4 2),
        hexNat? (hexSlice hex_ip 2 2), hexNat? (hexSlice hex_ip 0 2) with
  | some a, some b, some c, some d =>
      toString a ++ "." ++ toString b ++ "." ++ toString c ++ "." ++ toString d
  | _, _, _, _ => "INVALID_IP"

/-- Record returned by `parse_connection_line` in watcher-sudo.py (the
source names the peer fields `remote_address`/`remote_port`). -/
structure Rec where
  local_address : String
  local_port : Nat
  peer_address : String
  peer_port : Nat
  state : String
deriving DecidableEq

/-- Model of `parse_connection_line` in watcher-sudo.py: fewer than 4
fields → warning and `None` (the caller skips it); an endpoint field
that does not split on `":"` into exactly two parts raises an uncaught
`ValueError`; otherwise a record is always produced — `parse_port` and
`parse_ip_address` substitute fallback values instead of failing. -/
def parse_connection_line (line : String) : Except Unit (Option Rec) :=
  let parts := pySplitWs line
  if parts.length < 4 then .ok none
  else
    match splitColon (parts.getD 1 "") with
    | [local_address_hex, local_port_hex] =>
      match splitColon (parts.getD 2 "") with
      | [peer_address_hex, peer_port_hex] =>
        .ok (some { local_address := parse_ip_address local_address_hex,
                    local_port := parse_port local_port_hex,
                    peer_address := parse_ip_address peer_address_hex,
                    peer_port := parse_port peer_port_hex,
                    state := tcpStateGet (parts.getD 3 "") })
      | _ => .error ()
    | _ => .error ()

end WatcherSudo

/-- Decoder described by the specification for IPv6 (comparison
definition, written from the spec's words, not from any source file):
split the 32 hex digits into four 8-digit chunks in order, byte-reverse
each 4-byte chunk individually, and concatenate the reversed chunks in
original chunk order. -/
def specChunkLEBytes? (hex_ip : String) : Option (List Nat) :=
  let chunk := fun (i : Nat) =>
    match hexNat? (hexSlice hex_ip i 2), hexNat? (hexSlice hex_ip (i + 2) 2),
          hexNat? (hexSlice hex_ip (i + 4) 2), hexNat? (hexSlice hex_ip (i + 6) 2) with
    | some a, some b, some c, some d => some [a, b, c, d]
    | _, _, _, _ => none
  match chunk 0, chunk 8, chunk 16, chunk 24 with
  | some c0, some c1, some c2, some c3 =>
      some (c0.reverse ++ c1.reverse ++ c2.reverse ++ c3.reverse)
  | _, _, _, _ => none

/-- Re-encoding of a decoded IPv4 address (octets in printed order) back
to the kernel's little-endian hex form, as the round-trip law of the
specification requires: the 32-bit value `a.b.c.d` written as 4
little-endian bytes is the byte sequence `d c b a`. -/
def encodeIPv4LE (octets : List Nat) : String :=
  bytesToHex octets.reverse

/-- Chunk-wise little-endian re-encoding of a canonical 16-byte IPv6
address, as the spec's chunk-wise round-trip law requires: each 4-byte
chunk is byte-reversed and written as 8 hex digits. -/
def encodeIPv6ChunkLE (bs : List Nat) : String :=
  bytesToHex ((bs.take 4).reverse ++ ((bs.drop 4).take 4).reverse
    ++ ((bs.drop 8).take 4).reverse ++ ((bs.drop 12).take 4).reverse)

/-! Helper lemmas shared by the claim theorems. -/

/-- Encoding a hex digit value and parsing it back is the identity. -/
theorem hexDigitVal_hexDigitChar : ∀ v < 16, hexDigitVal? (hexDigitChar v) = some v := by
  decide

/-- One byte's two hex digits advance the base-16 accumulator by that byte. -/
theorem hexNatAux_byte (b : Nat) (hb : b < 256) (cs : List Char) (acc : Nat) :
    hexNatAux (hexDigitChar (b / 16) :: hexDigitChar (b % 16) :: cs) acc =
      hexNatAux cs (256 * acc + b) := by
  have h1 := hexDigitVal_hexDigitChar (b / 16) (by omega)
  have h2 := hexDigitVal_hexDigitChar (b % 16) (by omega)
  have harg : 16 * (16 * acc + b / 16) + b % 16 = 256 * acc + b := by omega
  simp [hexNatAux, h1, h2, harg]

/-- Parsing the hex rendering of four bytes gives their big-endian value. -/
theorem hexNat_bytesToHex4 (b0 b1 b2 b3 : Nat)
    (h0 : b0 < 256) (h1 : b1 < 256) (h2 : b2 < 256) (h3 : b3 < 256) :
    hexNat? (bytesToHex [b0, b1, b2, b3]) =
      some (b0 * 16777216 + b1 * 65536 + b2 * 256 + b3) := by
  have e : (bytesToHex [b0, b1, b2, b3]).data =
      hexDigitChar (b0 / 16) :: hexDigitChar (b0 % 16) :: hexDigitChar (b1 / 16) ::
      hexDigitChar (b1 % 16) :: hexDigitChar (b2 / 16) :: hexDigitChar (b2 % 16) ::
      hexDigitChar (b3 / 16) :: hexDigitChar (b3 % 16) :: [] := by
    simp [bytesToHex, bytesToHexChars, byteToHexChars]
  have estep : hexNat? (bytesToHex [b0, b1, b2, b3]) =
      hexNatAux (hexDigitChar (b0 / 16) :: hexDigitChar (b0 % 16) :: hexDigitChar (b1 / 16) ::
        hexDigitChar (b1 % 16) :: hexDigitChar (b2 / 16) :: hexDigitChar (b2 % 16) ::
        hexDigitChar (b3 / 16) :: hexDigitChar (b3 % 16) :: []) 0 := by
    unfold hexNat?
    rw [e]
  rw [estep, hexNatAux_byte b0 h0, hexNatAux_byte b1 h1, hexNatAux_byte b2 h2,
      hexNatAux_byte b3 h3]
  simp [hexNatAux]
  omega

/-- The little-endian byte expansion of a 4-byte big-endian value is the
reversed byte sequence. -/
theorem leBytes4_of_bytes (b0 b1 b2 b3 : Nat)
    (h0 : b0 < 256) (h1 : b1 < 256) (h2 : b2 < 256) (h3 : b3 < 256) :
    WatcherSubOff.leBytes4 (b0 * 16777216 + b1 * 65536 + b2 * 256 + b3) = [b3, b2, b1, b0] := by
  simp [WatcherSubOff.leBytes4]
  refine ⟨by omega, by omega, by omega, by omega⟩

/-- A line with fewer than 10 whitespace fields hits watcher_sub_off's
`continue` guard. -/
theorem lineRow_skip (line : String) (h : (pySplitWs line).length < 10) :
    WatcherSubOff.lineRow line = .ok none := by
  unfold WatcherSubOff.lineRow
  simp [h]

/-- Removing a guarded (fewer-than-10-fields) line anywhere in the batch
leaves watcher_sub_off's collected rows unchanged. -/
theorem processRows_skip (pre post : List String) (bad : String)
    (h : (pySplitWs bad).length < 10) :
    WatcherSubOff.processRows (pre ++ bad :: post) = WatcherSubOff.processRows (pre ++ post) := by
  induction pre with
  | nil =>
    simp only [List.nil_append]
    rw [WatcherSubOff.processRows, lineRow_skip bad h]
  | cons p ps ih =>
    simp only [List.cons_append]
    rw [WatcherSubOff.processRows, WatcherSubOff.processRows, ih]

/-- Two successive list filters equal one filter by the conjunction. -/
theorem filter_and_eq {α : Type} (p q : α → Bool) (l : List α) :
    (l.filter p).filter q = l.filter (fun a => p a && q a) := by
  induction l with
  | nil => rfl
  | cons a as ih =>
    cases hp : p a <;> cases hq : q a <;> simp [List.filter_cons, hp, hq, ih]

/-- Pointwise equal predicates filter identically. -/
theorem filter_congr_own {α : Type} (p q : α → Bool) (l : List α) (h : ∀ a, p a = q a) :
    l.filter p = l.filter q := by
  induction l with
  | nil => rfl
  | cons a as ih => simp [List.filter_cons, h a, ih]

/-- Filtering by the constant-true predicate is the identity. -/
theorem filter_true_own {α : Type} (l : List α) : l.filter (fun _ => true) = l := by
  induction l with
  | nil => rfl
  | cons a as ih => simp [List.filter_cons, ih]

/-- Filtering by a predicate that accepts everything is the identity. -/
theorem filter_of_true {α : Type} (p : α → Bool) (l : List α) (h : ∀ a, p a = true) :
    l.filter p = l := by
  rw [filter_congr_own p (fun _ => true) l h, filter_true_own]

/-- Empty-string and zero filter values are Python-falsy: every record
passes all three guards. -/
theorem passes_blank (r : NetAdmin.Conn) :
    NetAdmin.passes (some "") (some "") (some 0) r = true := rfl

/-- Absent filters keep every record. -/
theorem passes_none (r : NetAdmin.Conn) :
    NetAdmin.passes none none none r = true := rfl

/-- The net-admin loop behaves identically under falsy filter values and
under absent filters. -/
theorem process_blank_filters (protocol : String) (lines : List String) :
    NetAdmin.process protocol (some "") (some "") (some 0) lines =
      NetAdmin.process protocol none none none lines := by
  induction lines with
  | nil => rfl
  | cons l ls ih =>
    rw [NetAdmin.process, NetAdmin.process]
    cases hd : NetAdmin.decodeLine protocol l with
    | error e => rfl
    | ok r? =>
      cases r? with
      | none => exact ih
      | some r => simp [passes_blank, passes_none, ih]

/-- A successful filtered run of the net-admin loop is the unfiltered
run of the same lines followed by one list filter. -/
theorem process_ok_factor (protocol : String) (fstate fip : Option String)
    (fport : Option Nat) :
    ∀ (lines : List String) (out : List NetAdmin.Conn),
      NetAdmin.process protocol fstate fip fport lines = .ok out →
      ∃ all, NetAdmin.process protocol none none none lines = .ok all ∧
        out = all.filter (NetAdmin.passes fstate fip fport)
  | [], out, h => by
    refine ⟨[], rfl, ?_⟩
    cases h
    rfl
  | l :: ls, out, h => by
    rw [NetAdmin.process] at h
    rw [NetAdmin.process]
    cases hd : NetAdmin.decodeLine protocol l with
    | error e => rw [hd] at h; cases h
    | ok r? =>
      rw [hd] at h
      cases r? with
      | none =>
        dsimp only at h
        obtain ⟨all, hall, hf⟩ := process_ok_factor protocol fstate fip fport ls out h
        exact ⟨all, by dsimp only; exact hall, hf⟩
      | some r =>
        dsimp only at h
        cases hp : NetAdmin.passes fstate fip fport r with
        | true =>
          rw [hp] at h
          simp only [if_true] at h
          cases hrec : NetAdmin.process protocol fstate fip fport ls with
          | error e => rw [hrec] at h; cases h
          | ok rs =>
            rw [hrec] at h
            obtain ⟨all, hall, hf⟩ := process_ok_factor protocol fstate fip fport ls rs hrec
            refine ⟨r :: all, ?_, ?_⟩
            · dsimp only
              simp [passes_none, hall]
            · cases h
              simp [List.filter_cons, hp, hf]
        | false =>
          rw [hp] at h
          simp only [Bool.false_eq_true, if_false] at h
          obtain ⟨all, hall, hf⟩ := process_ok_factor protocol fstate fip fport ls out h
          refine ⟨r :: all, ?_, ?_⟩
          · dsimp only
            simp [passes_none, hall]
          · simp [List.filter_cons, hp, hf]

example : hexNat? "1F90" = some 8080 := by decide
example : WatcherSubOff.hex_to_ip "0100007F" = .v4 "127.0.0.1" := by decide
example : WatcherSubOff.hex_to_ip "00000000" = .v4 "0.0.0.0" := by decide
example : Watcher2.parse_ip? "0100007F" = some "1.0.0.127" := by decide
example : NetAdmin.parse_ipv4 "0100007F" = "127.0.0.1" := by decide
example : pySplitWs "1: 0100007F:1F90 00000000:0000 0A" =
  ["1:", "0100007F:1F90", "00000000:0000", "0A"] := by decide
example : splitColon "0100007F:1F90" = ["0100007F", "1F90"] := by decide


/-! Claim theorems. -/

/-- C1: correct IPv4 decoding reverses the little-endian hex byte order
(hex pairs read from the end toward the start), and the documented line
decodes to 127.0.0.1:8080, 0.0.0.0:0, LISTEN — watcher_sub_off's
`hex_to_ip` and net-admin's line decode conform, but watcher2's
`parse_ip` reads the hex pairs from the START toward the end and returns
"1.0.0.127" for "0100007F", so the claim fails on that cited decoder. -/
theorem C1_ipv4_byte_order :
    WatcherSubOff.hex_to_ip "0100007F" = .v4 "127.0.0.1" ∧
    hexNat? "1F90" = some 8080 ∧
    WatcherSubOff.hex_to_ip "00000000" = .v4 "0.0.0.0" ∧
    tcpStateGet "0A" = "LISTEN" ∧
    NetAdmin.decodeLine "tcp" "1: 0100007F:1F90 00000000:0000 0A" =
      .ok (some ⟨"tcp", "LISTEN", "127.0.0.1", 8080, "0.0.0.0", 0⟩) ∧
    Watcher2.parse_ip? "0100007F" = some "1.0.0.127" ∧
    "1.0.0.127" ≠ "127.0.0.1" :=
  ⟨by decide, by decide, by decide, by decide, rfl, by decide, by decide⟩

/-- C2: the spec requires each 4-byte chunk of a 32-hex-digit IPv6
address to be byte-reversed individually; on the input whose first chunk
is "00000001" that decode yields leading bytes 01 00 00 00, but
watcher_sub_off's `hex_to_ip` (whose `reversed(chunks)` enumeration and
32-bit shifts reconstruct the original chunk order byte-for-byte)
produces 00 00 00 01, and net-admin's `parse_ipv6` merely regroups the
hex digits — neither performs the chunk-wise byte reversal. -/
theorem C2_ipv6_chunk_reversal_missing :
    WatcherSubOff.hex_to_ip "00000001000000000000000000000000" =
      .v6 [0, 0, 0, 1, 0, 0, 0, 0, 0, 0, 0, 0, 0, 0, 0, 0] ∧
    specChunkLEBytes? "00000001000000000000000000000000" =
      some [1, 0, 0, 0, 0, 0, 0, 0, 0, 0, 0, 0, 0, 0, 0, 0] ∧
    NetAdmin.parse_ipv6 "00000001000000000000000000000000" =
      "0000:0001:0000:0000:0000:0000:0000:0000" ∧
    ([0, 0, 0, 1, 0, 0, 0, 0, 0, 0, 0, 0, 0, 0, 0, 0] : List Nat) ≠
      [1, 0, 0, 0, 0, 0, 0, 0, 0, 0, 0, 0, 0, 0, 0, 0] :=
  ⟨by decide, by decide, by decide, by decide⟩

/-- C3: the IPv4 round-trip law holds — decoding any 8-hex-digit
little-endian encoding with watcher_sub_off's 8-digit branch and
re-encoding the resulting octets to little-endian hex reproduces the
original string — but the analogous chunk-wise IPv6 round-trip fails,
because the 32-digit branch performs no per-chunk byte reversal, so the
chunk-wise little-endian re-encoding of its output differs from the
original encoding. -/
theorem C3_roundtrip (b0 b1 b2 b3 : Nat)
    (h0 : b0 < 256) (h1 : b1 < 256) (h2 : b2 < 256) (h3 : b3 < 256) :
    (WatcherSubOff.ipv4_bytes? (bytesToHex [b0, b1, b2, b3]) = some [b3, b2, b1, b0] ∧
     encodeIPv4LE [b3, b2, b1, b0] = bytesToHex [b0, b1, b2, b3]) ∧
    (WatcherSubOff.hex_to_ip "00000001000000000000000000000000" =
       .v6 [0, 0, 0, 1, 0, 0, 0, 0, 0, 0, 0, 0, 0, 0, 0, 0] ∧
     encodeIPv6ChunkLE [0, 0, 0, 1, 0, 0, 0, 0, 0, 0, 0, 0, 0, 0, 0, 0] =
       "01000000000000000000000000000000" ∧
     "01000000000000000000000000000000" ≠ "00000001000000000000000000000000") := by
  refine ⟨⟨?_, ?_⟩, by decide, by decide, by decide⟩
  · rw [WatcherSubOff.ipv4_bytes?, hexNat_bytesToHex4 b0 b1 b2 b3 h0 h1 h2 h3]
    show some (WatcherSubOff.leBytes4 (b0 * 16777216 + b1 * 65536 + b2 * 256 + b3)) =
      some [b3, b2, b1, b0]
    rw [leBytes4_of_bytes b0 b1 b2 b3 h0 h1 h2 h3]
  · simp [encodeIPv4LE]

/-- Witness for C3 at the localhost bytes 01 00 00 7F. -/
theorem C3_roundtrip_witness :
    (WatcherSubOff.ipv4_bytes? (bytesToHex [1, 0, 0, 127]) = some [127, 0, 0, 1] ∧
     encodeIPv4LE [127, 0, 0, 1] = bytesToHex [1, 0, 0, 127]) ∧
    (WatcherSubOff.hex_to_ip "00000001000000000000000000000000" =
       .v6 [0, 0, 0, 1, 0, 0, 0, 0, 0, 0, 0, 0, 0, 0, 0, 0] ∧
     encodeIPv6ChunkLE [0, 0, 0, 1, 0, 0, 0, 0, 0, 0, 0, 0, 0, 0, 0, 0] =
       "01000000000000000000000000000000" ∧
     "01000000000000000000000000000000" ≠ "00000001000000000000000000000000") :=
  C3_roundtrip 1 0 0 127 (by decide) (by decide) (by decide) (by decide)

/-- C4: watcher_sub_off skips any line with fewer than its minimum 10
fields, leaving the collected rows exactly as if the line were absent;
watcher2, however, has no field-count guard, so the same batch with a
one-field line aborts with an uncaught IndexError instead of skipping
it — the claim fails on watcher2's cited loop. -/
theorem C4_malformed_line (pre post : List String) (bad : String)
    (h : (pySplitWs bad).length < 10) :
    WatcherSubOff.processRows (pre ++ bad :: post) =
      WatcherSubOff.processRows (pre ++ post) ∧
    Watcher2.process none none none
      ["2: 0100007F:0050 00000000:0000 01", "garbage",
       "3: 0100007F:1F90 00000000:0000 0A"] = .error () :=
  ⟨processRows_skip pre post bad h, rfl⟩

/-- Witness for C4: a short line between two well-formed 10-field lines. -/
theorem C4_malformed_line_witness :
    WatcherSubOff.processRows
        ["0: 0100007F:1F90 00000000:0000 0A 00000000:00000000 00:00000000 00000000 0 0 12345",
         "1: 2",
         "1: 0100007F:0050 00000000:0000 01 00000000:00000000 00:00000000 00000000 0 0 12346"] =
      WatcherSubOff.processRows
        ["0: 0100007F:1F90 00000000:0000 0A 00000000:00000000 00:00000000 00000000 0 0 12345",
         "1: 0100007F:0050 00000000:0000 01 00000000:00000000 00:00000000 00000000 0 0 12346"] ∧
    Watcher2.process none none none
      ["2: 0100007F:0050 00000000:0000 01", "garbage",
       "3: 0100007F:1F90 00000000:0000 0A"] = .error () :=
  C4_malformed_line
    ["0: 0100007F:1F90 00000000:0000 0A 00000000:00000000 00:00000000 00000000 0 0 12345"]
    ["1: 0100007F:0050 00000000:0000 01 00000000:00000000 00:00000000 00000000 0 0 12346"]
    "1: 2" (by decide)

/-- C5: every code of the fixed 11-entry table resolves to its
documented name, every code outside the table resolves to the unknown
marker, and a line with an unrecognized state code still yields a valid
record rather than a rejection. -/
theorem C5_state_table (c : String) (h : TCP_STATES.lookup c = none) :
    tcpStateGet "01" = "ESTABLISHED" ∧ tcpStateGet "02" = "SYN_SENT" ∧
    tcpStateGet "03" = "SYN_RECV" ∧ tcpStateGet "04" = "FIN_WAIT1" ∧
    tcpStateGet "05" = "FIN_WAIT2" ∧ tcpStateGet "06" = "TIME_WAIT" ∧
    tcpStateGet "07" = "CLOSE" ∧ tcpStateGet "08" = "CLOSE_WAIT" ∧
    tcpStateGet "09" = "LAST_ACK" ∧ tcpStateGet "0A" = "LISTEN" ∧
    tcpStateGet "0B" = "CLOSING" ∧
    tcpStateGet c = "UNKNOWN" ∧
    NetAdmin.decodeLine "tcp" "1: 0100007F:1F90 00000000:0000 FF" =
      .ok (some ⟨"tcp", "UNKNOWN", "127.0.0.1", 8080, "0.0.0.0", 0⟩) := by
  refine ⟨by decide, by decide, by decide, by decide, by decide, by decide, by decide,
          by decide, by decide, by decide, by decide, ?_, rfl⟩
  unfold tcpStateGet
  rw [h]
  rfl

/-- Witness for C5 at the unrecognized code "FF". -/
theorem C5_state_table_witness :
    tcpStateGet "01" = "ESTABLISHED" ∧ tcpStateGet "02" = "SYN_SENT" ∧
    tcpStateGet "03" = "SYN_RECV" ∧ tcpStateGet "04" = "FIN_WAIT1" ∧
    tcpStateGet "05" = "FIN_WAIT2" ∧ tcpStateGet "06" = "TIME_WAIT" ∧
    tcpStateGet "07" = "CLOSE" ∧ tcpStateGet "08" = "CLOSE_WAIT" ∧
    tcpStateGet "09" = "LAST_ACK" ∧ tcpStateGet "0A" = "LISTEN" ∧
    tcpStateGet "0B" = "CLOSING" ∧
    tcpStateGet "FF" = "UNKNOWN" ∧
    NetAdmin.decodeLine "tcp" "1: 0100007F:1F90 00000000:0000 FF" =
      .ok (some ⟨"tcp", "UNKNOWN", "127.0.0.1", 8080, "0.0.0.0", 0⟩) :=
  C5_state_table "FF" (by decide)

/-- C6 counterexample: on a filesystem where the table path does not
exist, watcher3-rich.py's reader returns zero records without raising —
but reports NOTHING, refuting the claim's "reports SourceUnavailable"
conjunct for that cited reader (its `except FileNotFoundError` branch is
a bare `return []`). -/
theorem C6_counterexample :
    (Watcher3Rich.read_tcp_connections (fun _ => .absent) "/proc/net/tcp" "TCP").reported
      = false ∧
    (Watcher3Rich.read_tcp_connections (fun _ => .absent) "/proc/net/tcp" "TCP").result
      = .ok [] :=
  ⟨rfl, rfl⟩

/-- C6 (amended): when the kernel table path does not exist, net-admin's
reader reports the missing source and returns an empty, exception-free
result, while watcher3-rich's reader returns an empty, exception-free
result SILENTLY, reporting nothing; when the path exists, both exclude
the first (header) line from the data handed to the parse stage. -/
theorem C6_table_reader (fs : String → Option (List String))
    (fs3 : String → Watcher3Rich.FsEntry) (protocol filename tprotocol : String)
    (fstate fip : Option String) (fport : Option Nat) :
    (fs ("/proc/net/" ++ protocol) = none →
      NetAdmin.read_tcp_connections fs protocol fstate fip fport = ⟨.ok [], true⟩) ∧
    (∀ hdr rest, fs ("/proc/net/" ++ protocol) = some (hdr :: rest) →
      NetAdmin.read_tcp_connections fs protocol fstate fip fport =
        ⟨NetAdmin.process protocol fstate fip fport rest, false⟩) ∧
    (fs3 filename = .absent →
      Watcher3Rich.read_tcp_connections fs3 filename tprotocol = ⟨.ok [], false⟩) ∧
    (∀ ls, fs3 filename = .readable ls →
      Watcher3Rich.read_tcp_connections fs3 filename tprotocol =
        ⟨Watcher3Rich.processLines tprotocol (ls.drop 1), false⟩) := by
  refine ⟨fun h => ?_, fun hdr rest h => ?_, fun h => ?_, fun ls h => ?_⟩ <;>
    simp [NetAdmin.read_tcp_connections, Watcher3Rich.read_tcp_connections, h]

/-- Witness for C6 on an absent path and on a present two-line table. -/
theorem C6_table_reader_witness :
    NetAdmin.read_tcp_connections (fun _ => none) "tcp" none none none = ⟨.ok [], true⟩ ∧
    NetAdmin.read_tcp_connections
        (fun _ => some ["header", "1: 0100007F:1F90 00000000:0000 0A"]) "tcp" none none none =
      ⟨NetAdmin.process "tcp" none none none ["1: 0100007F:1F90 00000000:0000 0A"], false⟩ ∧
    Watcher3Rich.read_tcp_connections (fun _ => .absent) "/proc/net/tcp" "TCP" =
      ⟨.ok [], false⟩ ∧
    Watcher3Rich.read_tcp_connections
        (fun _ => .readable ["header", "1: 0100007F:1F90 00000000:0000 0A"])
        "/proc/net/tcp" "TCP" =
      ⟨Watcher3Rich.processLines "TCP" ["1: 0100007F:1F90 00000000:0000 0A"], false⟩ :=
  ⟨(C6_table_reader (fun _ => none) (fun _ => .absent) "tcp" "/proc/net/tcp" "TCP"
      none none none).1 rfl,
   (C6_table_reader (fun _ => some ["header", "1: 0100007F:1F90 00000000:0000 0A"])
      (fun _ => .absent) "tcp" "/proc/net/tcp" "TCP" none none none).2.1
      "header" ["1: 0100007F:1F90 00000000:0000 0A"] rfl,
   (C6_table_reader (fun _ => none) (fun _ => .absent) "tcp" "/proc/net/tcp" "TCP"
      none none none).2.2.1 rfl,
   (C6_table_reader (fun _ => none)
      (fun _ => .readable ["header", "1: 0100007F:1F90 00000000:0000 0A"])
      "tcp" "/proc/net/tcp" "TCP" none none none).2.2.2
      ["header", "1: 0100007F:1F90 00000000:0000 0A"] rfl⟩

/-- C7: the three filter axes commute — every evaluation order of the
state, address and port filters yields the one combined filter — the
combined filter is idempotent, and a port filter of 8080 selects exactly
the records whose local or peer port is 8080. -/
theorem C7_filter_axis_algebra (fstate fip : Option String) (fport : Option Nat)
    (l : List NetAdmin.Conn) :
    NetAdmin.filterPort fport (NetAdmin.filterIp fip (NetAdmin.filterState fstate l)) =
      l.filter (NetAdmin.passes fstate fip fport) ∧
    NetAdmin.filterIp fip (NetAdmin.filterPort fport (NetAdmin.filterState fstate l)) =
      l.filter (NetAdmin.passes fstate fip fport) ∧
    NetAdmin.filterPort fport (NetAdmin.filterState fstate (NetAdmin.filterIp fip l)) =
      l.filter (NetAdmin.passes fstate fip fport) ∧
    NetAdmin.filterState fstate (NetAdmin.filterPort fport (NetAdmin.filterIp fip l)) =
      l.filter (NetAdmin.passes fstate fip fport) ∧
    NetAdmin.filterIp fip (NetAdmin.filterState fstate (NetAdmin.filterPort fport l)) =
      l.filter (NetAdmin.passes fstate fip fport) ∧
    NetAdmin.filterState fstate (NetAdmin.filterIp fip (NetAdmin.filterPort fport l)) =
      l.filter (NetAdmin.passes fstate fip fport) ∧
    (l.filter (NetAdmin.passes fstate fip fport)).filter (NetAdmin.passes fstate fip fport) =
      l.filter (NetAdmin.passes fstate fip fport) ∧
    NetAdmin.filterPort (some 8080) l =
      l.filter (fun r => r.local_port == 8080 || r.peer_port == 8080) := by
  refine ⟨?_, ?_, ?_, ?_, ?_, ?_, ?_, ?_⟩
  · simp only [NetAdmin.filterState, NetAdmin.filterIp, NetAdmin.filterPort, filter_and_eq]
    apply filter_congr_own
    intro r
    simp [NetAdmin.passes, Bool.and_comm, Bool.and_left_comm, Bool.and_assoc]
  · simp only [NetAdmin.filterState, NetAdmin.filterIp, NetAdmin.filterPort, filter_and_eq]
    apply filter_congr_own
    intro r
    simp [NetAdmin.passes, Bool.and_comm, Bool.and_left_comm, Bool.and_assoc]
  · simp only [NetAdmin.filterState, NetAdmin.filterIp, NetAdmin.filterPort, filter_and_eq]
    apply filter_congr_own
    intro r
    simp [NetAdmin.passes, Bool.and_comm, Bool.and_left_comm, Bool.and_assoc]
  · simp only [NetAdmin.filterState, NetAdmin.filterIp, NetAdmin.filterPort, filter_and_eq]
    apply filter_congr_own
    intro r
    simp [NetAdmin.passes, Bool.and_comm, Bool.and_left_comm, Bool.and_assoc]
  · simp only [NetAdmin.filterState, NetAdmin.filterIp, NetAdmin.filterPort, filter_and_eq]
    apply filter_congr_own
    intro r
    simp [NetAdmin.passes, Bool.and_comm, Bool.and_left_comm, Bool.and_assoc]
  · simp only [NetAdmin.filterState, NetAdmin.filterIp, NetAdmin.filterPort, filter_and_eq]
    apply filter_congr_own
    intro r
    simp [NetAdmin.passes, Bool.and_comm, Bool.and_left_comm, Bool.and_assoc]
  · rw [filter_and_eq]
    apply filter_congr_own
    intro r
    cases h : NetAdmin.passes fstate fip fport r <;> simp [h]
  · apply filter_congr_own
    intro r
    rfl

/-- C8 counterexample: a line whose port field "ZZZZ" fails base-16
parsing is NOT rejected — watcher-sudo's `parse_connection_line` emits a
record with the substituted port value 0. -/
theorem C8_counterexample :
    WatcherSudo.parse_connection_line "1: 0100007F:ZZZZ 00000000:0000 0A" =
      .ok (some ⟨"127.0.0.1", 0, "0.0.0.0", 0, "LISTEN"⟩) := rfl

/-- C8 (amended): an address field whose hex length is neither 8 nor 32
makes watcher_sub_off's `hex_to_ip` return the placeholder "INVALID"
while the row is still emitted with that placeholder, and a port field
that fails base-16 parsing makes watcher-sudo's `parse_port` substitute
0 while the record is still emitted — such lines are not rejected. -/
theorem C8_placeholder_not_reject (s t : String)
    (h8 : s.length ≠ 8) (h32 : s.length ≠ 32) (ht : hexNat? t = none) :
    WatcherSubOff.hex_to_ip s = .invalid ∧
    WatcherSudo.parse_port t = 0 ∧
    WatcherSudo.parse_connection_line "1: 0100007F:ZZZZ 00000000:0000 0A" =
      .ok (some ⟨"127.0.0.1", 0, "0.0.0.0", 0, "LISTEN"⟩) ∧
    WatcherSubOff.lineRow
        "0: ABC:1F90 00000000:0000 0A 00000000:00000000 00:00000000 00000000 0 0 12345" =
      .ok (some ⟨"0:", "LISTEN", .invalid, 8080, .v4 "0.0.0.0", 0, "0"⟩) := by
  refine ⟨?_, ?_, rfl, rfl⟩
  · unfold WatcherSubOff.hex_to_ip
    simp [h8, h32]
  · unfold WatcherSudo.parse_port
    rw [ht]
    rfl

/-- Witness for C8 at the inputs "ABC" and "ZZZZ". -/
theorem C8_placeholder_witness :
    WatcherSubOff.hex_to_ip "ABC" = .invalid ∧
    WatcherSudo.parse_port "ZZZZ" = 0 ∧
    WatcherSudo.parse_connection_line "1: 0100007F:ZZZZ 00000000:0000 0A" =
      .ok (some ⟨"127.0.0.1", 0, "0.0.0.0", 0, "LISTEN"⟩) ∧
    WatcherSubOff.lineRow
        "0: ABC:1F90 00000000:0000 0A 00000000:00000000 00:00000000 00000000 0 0 12345" =
      .ok (some ⟨"0:", "LISTEN", .invalid, 8080, .v4 "0.0.0.0", 0, "0"⟩) :=
  C8_placeholder_not_reject "ABC" "ZZZZ" (by decide) (by decide) (by decide)

/-- C9: the Python-truthiness test makes a port filter of 0 (and an
empty-string state or address filter) inactive — the loop behaves as if
the filter were absent and the port-0 axis never restricts the record
set, so filter_port=0 cannot select the port-0 records. -/
theorem C9_falsy_filters_inactive (protocol : String) (lines : List String)
    (l : List NetAdmin.Conn) :
    NetAdmin.process protocol (some "") (some "") (some 0) lines =
      NetAdmin.process protocol none none none lines ∧
    l.filter (NetAdmin.passes (some "") (some "") (some 0)) = l ∧
    NetAdmin.filterPort (some 0) l = l ∧
    NetAdmin.filterState (some "") l = l ∧
    NetAdmin.filterIp (some "") l = l := by
  refine ⟨process_blank_filters protocol lines, ?_, ?_, ?_, ?_⟩
  · exact filter_of_true _ l passes_blank
  · exact filter_of_true _ l (fun a => rfl)
  · exact filter_of_true _ l (fun a => rfl)
  · exact filter_of_true _ l (fun a => rfl)

/-- C10: whenever the net-admin loop completes, its output is the
in-order unfiltered record sequence of the same lines restricted by the
one combined filter, hence an order-preserving sublist of it — filtering
and per-line rejection never reorder the survivors. -/
theorem C10_order_preserved (protocol : String) (fstate fip : Option String)
    (fport : Option Nat) (lines : List String) (out : List NetAdmin.Conn)
    (h : NetAdmin.process protocol fstate fip fport lines = .ok out) :
    ∃ all, NetAdmin.process protocol none none none lines = .ok all ∧
      out = all.filter (NetAdmin.passes fstate fip fport) ∧ out.Sublist all := by
  obtain ⟨all, hall, hf⟩ := process_ok_factor protocol fstate fip fport lines out h
  exact ⟨all, hall, hf, hf ▸ List.filter_sublist all⟩

/-- Witness for C10: a two-line batch filtered on port 8080 keeps only
the matching record, in order. -/
theorem C10_order_preserved_witness :
    ∃ all, NetAdmin.process "tcp" none none none
        ["1: 0100007F:1F90 00000000:0000 0A", "2: 0100007F:0050 00000000:0000 01"] =
          .ok all ∧
      ([⟨"tcp", "LISTEN", "127.0.0.1", 8080, "0.0.0.0", 0⟩] : List NetAdmin.Conn) =
        all.filter (NetAdmin.passes none none (some 8080)) ∧
      List.Sublist ([⟨"tcp", "LISTEN", "127.0.0.1", 8080, "0.0.0.0", 0⟩] : List NetAdmin.Conn)
        all :=
  C10_order_preserved "tcp" none none (some 8080)
    ["1: 0100007F:1F90 00000000:0000 0A", "2: 0100007F:0050 00000000:0000 01"]
    [⟨"tcp", "LISTEN", "127.0.0.1", 8080, "0.0.0.0", 0⟩] rfl
